import Mathlib

/-!
Verification of the transition test harness of solid-transition-group.

The development shallowly embeds three components of the repository:

* the Transition Activity Analyser (`ComponentTransitionAnalyser`, the
  report/assertion state machine of `getTransitionActivityReport`),
* the Task Scheduler (`TaskManager`), as a state machine over a registry
  of killers plus the platform frame/timeout queues, with scheduled
  callbacks deeply embedded as small programs,
* the Content Change Tracker (`trackDOMContentChanges`), as a polling
  state machine.

Times are modelled as integers (all timestamps come from `Date.now()`,
which returns integer milliseconds, and all durations in the repository
are integer literals; JavaScript number arithmetic is exact on such
values).
-/

namespace SolidTransitionGroup

/-! ## Analyser data model (ComponentTransitionAnalyser.ts) -/

/-- A captured snapshot of the transition container: the pretty-printed
markup and the `Date.now()` timestamp at capture time. -/
structure TransitionSnapshot where
  content : String
  recordedAt : Int
deriving DecidableEq, Repr

/-- A trigger queued on the analyser.  The `execute` field of the source
is a side effect on the external rendered component (part of the
observation environment, see `captureTransitionSnapshots` below); the
report generator only consumes `expectedDuration`.  `isFollowUp` records
whether the trigger was added by `expectFollowUpTransition` (its
`execute` is a no-op). -/
structure TransitionTrigger where
  isFollowUp : Bool
  expectedDuration : Int
deriving DecidableEq, Repr

/-- `addTransitionTrigger`: appends a trigger to the ordered queue. -/
def addTransitionTrigger (triggers : List TransitionTrigger) (t : TransitionTrigger) :
    List TransitionTrigger :=
  triggers ++ [t]

/-- `expectFollowUpTransition`: appends a trigger whose `execute` is a no-op. -/
def expectFollowUpTransition (triggers : List TransitionTrigger) (expectedDuration : Int) :
    List TransitionTrigger :=
  triggers ++ [{ isFollowUp := true, expectedDuration := expectedDuration }]

/-- Character-list test that `pat` is an initial segment of `s`. -/
def charsStartWith : List Char → List Char → Bool
  | [], _ => true
  | _ :: _, [] => false
  | p :: ps, c :: cs => p == c && charsStartWith ps cs

/-- Character-list test that `pat` occurs somewhere in `s`. -/
def charsOccurIn (pat : List Char) : List Char → Bool
  | [] => pat.isEmpty
  | c :: cs => charsStartWith pat (c :: cs) || charsOccurIn pat cs

/-- JavaScript `s.indexOf(pat) !== -1`: `pat` occurs as a substring of `s`. -/
def containsSub (s pat : String) : Bool :=
  charsOccurIn pat.data s.data

/-- A character removed by JavaScript `String.prototype.trim` (the report
only ever contains plain spaces and newlines at its ends). -/
def jsWhitespace (c : Char) : Bool :=
  c == ' ' || c == '\n' || c == '\t' || c == '\r'

/-- JavaScript `s.trim()`: strip whitespace from both ends. -/
def jsTrim (s : String) : String :=
  ⟨((s.data.dropWhile jsWhitespace).reverse.dropWhile jsWhitespace).reverse⟩

/-- Total access to `capturedSnapshots[i]!`; the report loop only reads
indices below the list length. -/
def getSnap (snaps : List TransitionSnapshot) (i : Nat) : TransitionSnapshot :=
  snaps.getD i { content := "", recordedAt := 0 }

/-- `snapshotInEnterTransition`: the snapshot's content contains the
marker class `"enter-active"`. -/
def snapshotInEnterTransition (snaps : List TransitionSnapshot) (change : Nat) : Bool :=
  containsSub (getSnap snaps change).content "enter-active"

/-- `snapshotInMoveTransition`: the snapshot's content contains the
marker class `"move-active"`. -/
def snapshotInMoveTransition (snaps : List TransitionSnapshot) (change : Nat) : Bool :=
  containsSub (getSnap snaps change).content "move-active"

/-- `diffBetweenSnapshotRecordedAtTimesInMs`. -/
def diffBetweenSnapshotRecordedAtTimesInMs (snaps : List TransitionSnapshot)
    (current previous : Nat) : Int :=
  (getSnap snaps current).recordedAt - (getSnap snaps previous).recordedAt

/-- `transitionTookDuration`: the acceptance test with the fixed
`fpsBuffer = 20`. -/
def transitionTookDuration (snaps : List TransitionSnapshot)
    (transitionEndIndex transitionStartIndex : Nat) (expectedDuration : Int) : Bool :=
  let fpsBuffer : Int := 20
  let min := expectedDuration - fpsBuffer
  let max := expectedDuration * 2 + fpsBuffer
  let actualDuration :=
    diffBetweenSnapshotRecordedAtTimesInMs snaps transitionEndIndex transitionStartIndex
  min ≤ actualDuration && actualDuration ≤ max

/-- Loop state of `getTransitionActivityReport`.  `consumedDurations` is
ghost instrumentation: it records, in order, the expected durations
popped off `expectedDurations` by `shift()` at stage boundaries; the
source does not store them but this is the trace the claims speak about. -/
structure ReportState where
  formattedReport : String
  transitionStage : Nat
  transitionIndex : Nat
  transitionStartIndex : Nat
  expectedDurations : List Int
  consumedDurations : List Int
deriving DecidableEq, Repr

/-- `TRANSITION_STAGES` constant. -/
def TRANSITION_STAGES : Nat := 3

/-- One iteration of the `for (let i = 1; i < this.capturedSnapshots.length; i++)`
loop of `getTransitionActivityReport`.  `snapshotDiff` is the external
line-diff collaborator.  A thrown assertion becomes `Except.error`.

When the boundary pops from an empty queue, `shift()` yields
`undefined`; the window arithmetic on `undefined` is `NaN`, every
comparison with `NaN` is false, and the assertion throws with
`undefined` interpolated into its message. -/
def reportStep (snapshotDiff : String → String → String) (snaps : List TransitionSnapshot)
    (st : ReportState) (i : Nat) : Except String ReportState :=
  let report1 := st.formattedReport ++ "Render " ++ toString i ++ ":"
  if st.transitionStage % TRANSITION_STAGES = 0 then
    let newStage : Nat :=
      if snapshotInEnterTransition snaps i then 1
      else if snapshotInMoveTransition snaps i then 2
      else 0
    match st.expectedDurations with
  | [] =>
      Except.error ("Transition #" ++ toString st.transitionIndex ++
        " failed to take at least undefinedms")
  | expectedDuration :: restDurations =>
      if transitionTookDuration snaps i st.transitionStartIndex expectedDuration then
        let report2 := report1 ++ " Transition took at least " ++
          toString expectedDuration ++ "ms"
        Except.ok
          { formattedReport := report2 ++ "\n" ++
              snapshotDiff (getSnap snaps (i - 1)).content (getSnap snaps i).content ++ "\n\n"
            transitionStage := newStage + 1
            transitionIndex := st.transitionIndex + 1
            transitionStartIndex := i
            expectedDurations := restDurations
            consumedDurations := st.consumedDurations ++ [expectedDuration] }
      else
        Except.error ("Transition #" ++ toString st.transitionIndex ++
          " failed to take at least " ++ toString expectedDuration ++ "ms")
  else
    Except.ok
      { st with
        formattedReport := report1 ++ "\n" ++
          snapshotDiff (getSnap snaps (i - 1)).content (getSnap snaps i).content ++ "\n\n"
        transitionStage := st.transitionStage + 1 }

/-- Initial loop state of `getTransitionActivityReport`: stage counter,
1-based transition index and cycle start index all begin at 1, and
`expectedDurations` is the map of the queued triggers' durations. -/
def initialReportState (durations : List Int) : ReportState :=
  { formattedReport := ""
    transitionStage := 1
    transitionIndex := 1
    transitionStartIndex := 1
    expectedDurations := durations
    consumedDurations := [] }

/-- The whole loop of `getTransitionActivityReport`, walking snapshot
indices `1, …, length - 1` and threading thrown assertions through
`Except`. -/
def runTransitionActivityReport (snapshotDiff : String → String → String)
    (snaps : List TransitionSnapshot) (durations : List Int) : Except String ReportState :=
  (List.range' 1 (snaps.length - 1)).foldl
    (fun acc i => acc.bind (fun st => reportStep snapshotDiff snaps st i))
    (Except.ok (initialReportState durations))

/-- `getTransitionActivityReport`: the trimmed report, or the thrown
assertion error. -/
def getTransitionActivityReport (snapshotDiff : String → String → String)
    (snaps : List TransitionSnapshot) (durations : List Int) : Except String String :=
  (runTransitionActivityReport snapshotDiff snaps durations).map
    (fun st => jsTrim st.formattedReport)

/-- Durations consumed by the analysis, as described in `ReportState`. -/
def consumedOf (r : Except String ReportState) : List Int :=
  match r with
  | Except.ok st => st.consumedDurations
  | Except.error _ => []

/-- Whether an analysis completed (did not reject). -/
def isOkE {α : Type} (r : Except String α) : Bool :=
  match r with
  | Except.ok _ => true
  | Except.error _ => false

/-! ### Spec-side definitions (from the specification's words) -/

/-- Spec: classification of a just-closed cycle by the boundary
snapshot's own content — an entering marker resets the counter to a
fresh enter-labelled cycle (1), a move marker to a two-stage move cycle
(2), otherwise a plain cycle (0). -/
def specCycleReset (content : String) : Nat :=
  if containsSub content "enter-active" then 1
  else if containsSub content "move-active" then 2
  else 0

/-- Spec: the duration acceptance window
`expectedDuration - 20 ≤ elapsed ≤ expectedDuration * 2 + 20`. -/
def specWindowAccepts (elapsed expectedDuration : Int) : Prop :=
  expectedDuration - 20 ≤ elapsed ∧ elapsed ≤ expectedDuration * 2 + 20

instance (elapsed expectedDuration : Int) : Decidable (specWindowAccepts elapsed expectedDuration) :=
  inferInstanceAs (Decidable (expectedDuration - 20 ≤ elapsed ∧ elapsed ≤ expectedDuration * 2 + 20))

/-- Spec: elapsed time between the cycle-start snapshot's timestamp and
the boundary snapshot's timestamp. -/
def specElapsed (snaps : List TransitionSnapshot) (startIdx endIdx : Nat) : Int :=
  (getSnap snaps endIdx).recordedAt - (getSnap snaps startIdx).recordedAt

/-! ## Task Scheduler (TaskManager.ts)

The scheduler is a state machine over the singleton's fields
(`taskKillers`, `nextTaskId`) together with the platform pieces it
drives: the browser's animation-frame and timeout queues (with their own
id counter), the `console.error` diagnostic sink, and an observable
output trace.  Scheduled callbacks are deeply embedded as small
sequential programs (`Prog`): they can run user code (observable as
`emit`), throw, schedule further tasks and cancel tasks — everything the
repository's callbacks do. -/

/-- A stored task killer: the closure `() => cancel(id)` registered by
`createTask`, where `cancel` is `cancelAnimationFrame` or
`clearTimeout` and `id` the platform identifier. -/
inductive Killer where
  | raf (requestId : Nat)
  | timeout (timeoutId : Nat)
deriving DecidableEq, Repr

/-- Deep embedding of a callback body. `emit v` marks an observable user
action (used to witness that a given callback did or did not run);
`fail` throws; the `sched…` constructors call the corresponding
`TaskManager` methods with `body` as callback and continue with `k`. -/
inductive Prog where
  | done
  | fail (msg : String)
  | emit (v : Nat) (k : Prog)
  | schedFrame (body : Prog) (k : Prog)
  | schedFrameAfterNext (body : Prog) (k : Prog)
  | schedTimeout (delay : Nat) (body : Prog) (k : Prog)
  | cancelId (taskId : Nat) (k : Prog)
  | cancelEvery (k : Prog)
deriving DecidableEq, Repr

/-- State of the scheduler and its platform environment.

* `rafQueue` — pending `requestAnimationFrame` callbacks as
  `(requestId, userCallback, taskId)`; the queued closure is always
  `() => executeTask(userCallback, taskId)`.
* `timeoutQueue` — pending `setTimeout` callbacks as
  `(timeoutId, delay, userCallback, taskId)`.
* `nextRequestId` — the platform's id counter (fresh ids for both
  queues).
* `taskKillers`, `nextTaskId` — the `TaskManager` fields.
* `errorLog` — the `console.error` diagnostic sink.
* `output` — trace of `emit`s performed by executed callbacks. -/
structure TM where
  rafQueue : List (Nat × Prog × Nat)
  timeoutQueue : List (Nat × Nat × Prog × Nat)
  nextRequestId : Nat
  taskKillers : List (Nat × Killer)
  nextTaskId : Nat
  errorLog : List String
  output : List Nat
deriving DecidableEq, Repr

/-- Fresh-process scheduler state (`nextTaskId` starts at 1). -/
def initialTM : TM :=
  { rafQueue := []
    timeoutQueue := []
    nextRequestId := 1
    taskKillers := []
    nextTaskId := 1
    errorLog := []
    output := [] }

/-- Platform `requestAnimationFrame`: enqueue and return a fresh request id. -/
def requestAnimationFrameOp (cb : Prog) (taskId : Nat) (s : TM) : TM × Nat :=
  ({ s with rafQueue := s.rafQueue ++ [(s.nextRequestId, cb, taskId)],
            nextRequestId := s.nextRequestId + 1 },
   s.nextRequestId)

/-- Platform `cancelAnimationFrame`: drop the request with that id. -/
def cancelAnimationFrameOp (requestId : Nat) (s : TM) : TM :=
  { s with rafQueue := s.rafQueue.filter (fun e => e.1 != requestId) }

/-- Platform `setTimeout`: enqueue and return a fresh timeout id. -/
def setTimeoutOp (cb : Prog) (taskId : Nat) (delay : Nat) (s : TM) : TM × Nat :=
  ({ s with timeoutQueue := s.timeoutQueue ++ [(s.nextRequestId, delay, cb, taskId)],
            nextRequestId := s.nextRequestId + 1 },
   s.nextRequestId)

/-- Platform `clearTimeout`: drop the timeout with that id. -/
def clearTimeoutOp (timeoutId : Nat) (s : TM) : TM :=
  { s with timeoutQueue := s.timeoutQueue.filter (fun e => e.1 != timeoutId) }

/-- Remove every killer stored under `taskId` (`taskKillers.delete(id)`). -/
def eraseKiller (taskId : Nat) (l : List (Nat × Killer)) : List (Nat × Killer) :=
  l.filter (fun e => e.1 != taskId)

/-- `taskKillers.set(taskId, killer)`.  `createTask` only ever sets a
fresh id, for which this equals plain insertion at the end. -/
def setKiller (taskId : Nat) (k : Killer) (l : List (Nat × Killer)) : List (Nat × Killer) :=
  eraseKiller taskId l ++ [(taskId, k)]

/-- Run a stored killer closure. -/
def runKiller : Killer → TM → TM
  | Killer.raf requestId, s => cancelAnimationFrameOp requestId s
  | Killer.timeout timeoutId, s => clearTimeoutOp timeoutId s

/-- `getNextTaskId`: post-increment of `nextTaskId`. -/
def getNextTaskId (s : TM) : TM × Nat :=
  ({ s with nextTaskId := s.nextTaskId + 1 }, s.nextTaskId)

/-- `scheduleAnimationFrame` (`createTask` inlined with the
frame-request schedule/cancel pair). -/
def scheduleAnimationFrame (callback : Prog) (s : TM) : TM × Nat :=
  let p1 := getNextTaskId s
  let p2 := requestAnimationFrameOp callback p1.2 p1.1
  ({ p2.1 with taskKillers := setKiller p1.2 (Killer.raf p2.2) p2.1.taskKillers }, p1.2)

/-- `scheduleTimeout` (`createTask` inlined with the timeout
schedule/cancel pair). -/
def scheduleTimeout (callback : Prog) (delay : Nat) (s : TM) : TM × Nat :=
  let p1 := getNextTaskId s
  let p2 := setTimeoutOp callback p1.2 delay p1.1
  ({ p2.1 with taskKillers := setKiller p1.2 (Killer.timeout p2.2) p2.1.taskKillers }, p1.2)

/-- `scheduleAnimationFrameAfterNext`: a frame task whose body schedules
another frame task that finally runs `callback`. -/
def scheduleAnimationFrameAfterNext (callback : Prog) (s : TM) : TM × Nat :=
  scheduleAnimationFrame (Prog.schedFrame callback Prog.done) s

/-- `cancelTask`: run the stored killer if present (`get(id)?.()`), then
delete the registry entry. -/
def cancelTask (id : Nat) (s : TM) : TM :=
  let s1 :=
    match s.taskKillers.find? (fun e => e.1 == id) with
    | some e => runKiller e.2 s
    | none => s
  { s1 with taskKillers := eraseKiller id s1.taskKillers }

/-- `cancelAllTasks`: run every killer in insertion order, then clear the map. -/
def cancelAllTasks (s : TM) : TM :=
  let s1 := s.taskKillers.foldl (fun acc e => runKiller e.2 acc) s
  { s1 with taskKillers := [] }

/-- `cleanupTask`: remove the task from the registry. -/
def cleanupTask (taskId : Nat) (s : TM) : TM :=
  { s with taskKillers := eraseKiller taskId s.taskKillers }

/-- Execute a callback body.  Returns the new state and `some msg` when
the body threw (the exception aborts the rest of the body and
propagates to the caller of the callback). -/
def execProg : Prog → TM → TM × Option String
  | Prog.done, s => (s, none)
  | Prog.fail msg, s => (s, some msg)
  | Prog.emit v k, s => execProg k { s with output := s.output ++ [v] }
  | Prog.schedFrame body k, s => execProg k (scheduleAnimationFrame body s).1
  | Prog.schedFrameAfterNext body k, s => execProg k (scheduleAnimationFrameAfterNext body s).1
  | Prog.schedTimeout delay body k, s => execProg k (scheduleTimeout body delay s).1
  | Prog.cancelId taskId k, s => execProg k (cancelTask taskId s)
  | Prog.cancelEvery k, s => execProg k (cancelAllTasks s)

/-- `executeTask`: the guarded wrapper.  `try { callback() }` —
`catch { console.error(…) }` — `finally { cleanupTask(taskId) }`.  The
wrapper itself never throws. -/
def executeTask (callback : Prog) (taskId : Nat) (s : TM) : TM :=
  let r := execProg callback s
  let s2 :=
    match r.2 with
    | some msg => { r.1 with errorLog := r.1.errorLog ++ ["Error executing task: " ++ msg] }
    | none => r.1
  cleanupTask taskId s2

/-- The platform fires the oldest pending callback (frames before
timeouts; the queued closure is `() => executeTask(cb, taskId)`). -/
def fireNextPlatformCallback (s : TM) : TM :=
  match s.rafQueue with
  | (_, cb, taskId) :: rest => executeTask cb taskId { s with rafQueue := rest }
  | [] =>
    match s.timeoutQueue with
    | (_, _, cb, taskId) :: rest => executeTask cb taskId { s with timeoutQueue := rest }
    | [] => s

/-- Run the event loop for a bounded number of steps. -/
def runEventLoop : Nat → TM → TM
  | 0, s => s
  | n + 1, s => runEventLoop n (fireNextPlatformCallback s)

/-- All `emit` values syntactically reachable from a callback body. -/
def Prog.emits : Prog → List Nat
  | Prog.done => []
  | Prog.fail _ => []
  | Prog.emit v k => v :: k.emits
  | Prog.schedFrame body k => body.emits ++ k.emits
  | Prog.schedFrameAfterNext body k => body.emits ++ k.emits
  | Prog.schedTimeout _ body k => body.emits ++ k.emits
  | Prog.cancelId _ k => k.emits
  | Prog.cancelEvery k => k.emits

/-- All `emit` values of callbacks pending in the platform queues. -/
def TM.queuedEmits (s : TM) : List Nat :=
  (s.rafQueue.map (fun e => e.2.1.emits)).flatten ++
    (s.timeoutQueue.map (fun e => e.2.2.1.emits)).flatten

/-- Basic well-formedness of a scheduler state: platform ids in the
queues and task ids in the registry are below their counters.  Holds
for every state reachable from `initialTM`. -/
def TM.WF (s : TM) : Prop :=
  (∀ e ∈ s.rafQueue, e.1 < s.nextRequestId) ∧
    (∀ e ∈ s.timeoutQueue, e.1 < s.nextRequestId) ∧
    (∀ e ∈ s.taskKillers, e.1 < s.nextTaskId)

instance (s : TM) : Decidable s.WF :=
  inferInstanceAs (Decidable ((∀ e ∈ s.rafQueue, e.1 < s.nextRequestId) ∧
    (∀ e ∈ s.timeoutQueue, e.1 < s.nextRequestId) ∧
    (∀ e ∈ s.taskKillers, e.1 < s.nextTaskId)))

/-- The three public scheduling entry points, as one parametrised call. -/
inductive ScheduleKind where
  | frame
  | afterNext
  | timeout (delay : Nat)
deriving DecidableEq, Repr

/-- Dispatch a scheduling call. -/
def scheduleBy : ScheduleKind → Prog → TM → TM × Nat
  | ScheduleKind.frame, p, s => scheduleAnimationFrame p s
  | ScheduleKind.afterNext, p, s => scheduleAnimationFrameAfterNext p s
  | ScheduleKind.timeout d, p, s => scheduleTimeout p d s

/-- A driver action against the scheduler: any public call, or letting
the platform fire the next pending callback. -/
inductive DriverOp where
  | schedFrameOp (p : Prog)
  | schedTimeoutOp (delay : Nat) (p : Prog)
  | schedAfterNextOp (p : Prog)
  | cancelOp (taskId : Nat)
  | cancelAllOp
  | fireOp
deriving DecidableEq, Repr

/-- Run a driver script, collecting the task ids returned by the three
scheduling entry points, in call order. -/
def runDriver : List DriverOp → TM → TM × List Nat
  | [], s => (s, [])
  | DriverOp.schedFrameOp p :: rest, s =>
    let r := scheduleAnimationFrame p s
    let rr := runDriver rest r.1
    (rr.1, r.2 :: rr.2)
  | DriverOp.schedTimeoutOp d p :: rest, s =>
    let r := scheduleTimeout p d s
    let rr := runDriver rest r.1
    (rr.1, r.2 :: rr.2)
  | DriverOp.schedAfterNextOp p :: rest, s =>
    let r := scheduleAnimationFrameAfterNext p s
    let rr := runDriver rest r.1
    (rr.1, r.2 :: rr.2)
  | DriverOp.cancelOp taskId :: rest, s => runDriver rest (cancelTask taskId s)
  | DriverOp.cancelAllOp :: rest, s => runDriver rest (cancelAllTasks s)
  | DriverOp.fireOp :: rest, s => runDriver rest (fireNextPlatformCallback s)

/-! ## Content Change Tracker (DOMContentTracker.ts)

`trackDOMContentChanges` keeps three locals: `lastContentValue` (a value
of the generic type `TType`, *uninitialised*, hence the JavaScript value
`undefined` until first assigned), `stopTracking`, and the pending
`taskId`.  We model a `TType` value as `Option V` with `none` standing
for `undefined`, and a call to `getContent` as a `GetResult`: either the
produced value or a thrown exception.  `g : Nat → GetResult V` gives the
result of the `n`-th evaluation of `getContent` (the state counts
evaluations). -/

/-- Result of one evaluation of `getContent()`. -/
inductive GetResult (V : Type) where
  | value (v : Option V)
  | thrown
deriving DecidableEq, Repr

/-- State of one `trackDOMContentChanges` closure.

* `lastContentValue` — the `lastContentValue` local (`none` =
  `undefined`, its value before first assignment);
* `stopTracking` — the stop flag;
* `delivered` — trace of values passed to `onContentChange`, in order;
* `evalCount` — how many times `getContent()` has been evaluated;
* `frameScheduled` — whether a poll task is currently scheduled via
  `TaskManager.scheduleAnimationFrame` (line 18 of the source). -/
structure TrackerState (V : Type) where
  lastContentValue : Option V
  stopTracking : Bool
  delivered : List (Option V)
  evalCount : Nat
  frameScheduled : Bool
deriving DecidableEq, Repr

/-- JavaScript `lastContentValue !== currentContent` on our encoding:
`undefined !== undefined` is false, `undefined !== v` is true, and two
proper values compare by (identity/value) equality. -/
def jsStrictNeq {V : Type} [DecidableEq V] (a b : Option V) : Bool :=
  a != b

/-- One run of `notifyIfContentChange`.  Returns the new state and
whether the body threw.  A throw from `getContent()` happens before the
`taskId = TaskManager.scheduleAnimationFrame(notifyIfContentChange)`
line, so no next poll is scheduled.  The running poll's own task has
already fired, so `frameScheduled` is re-established only by reaching
that line. -/
def notifyIfContentChange {V : Type} [DecidableEq V] (g : Nat → GetResult V)
    (st : TrackerState V) : TrackerState V × Bool :=
  if st.stopTracking then ({ st with frameScheduled := false }, false)
  else
    match g st.evalCount with
    | GetResult.thrown => ({ st with evalCount := st.evalCount + 1, frameScheduled := false }, true)
    | GetResult.value currentContent =>
      let st1 := { st with evalCount := st.evalCount + 1 }
      let st2 :=
        if jsStrictNeq st1.lastContentValue currentContent then
          { st1 with lastContentValue := currentContent
                     delivered := st1.delivered ++ [currentContent] }
        else st1
      ({ st2 with frameScheduled := true }, false)

/-- Tracker state at the start of `trackDOMContentChanges`, before the
initial synchronous call. -/
def trackerInit (V : Type) : TrackerState V :=
  { lastContentValue := none
    stopTracking := false
    delivered := []
    evalCount := 0
    frameScheduled := false }

/-- `trackDOMContentChanges` up to and including its initial synchronous
`notifyIfContentChange()` call (that call is *not* guarded by the
scheduler: a throw there propagates to the caller, reported in the
second component). -/
def trackDOMContentChanges {V : Type} [DecidableEq V] (g : Nat → GetResult V) :
    TrackerState V × Bool :=
  notifyIfContentChange g (trackerInit V)

/-- The scheduled polling loop: while a poll task is pending, the
platform fires it and the poll runs inside `TaskManager.executeTask`,
whose guarded wrapper absorbs a throw (one `console.error` entry, task
cleaned up) instead of propagating it.  Returns the final state and the
number of errors the scheduler logged.  Fuel bounds the number of
frames considered. -/
def pollLoop {V : Type} [DecidableEq V] (g : Nat → GetResult V) :
    Nat → TrackerState V → TrackerState V × Nat
  | 0, st => (st, 0)
  | n + 1, st =>
    if st.frameScheduled then
      let r := notifyIfContentChange g st
      let rest := pollLoop g n r.1
      (rest.1, (if r.2 then 1 else 0) + rest.2)
    else (st, 0)

/-! ## Snapshot capture control flow (ComponentTransitionAnalyser.ts)

`captureTransitionSnapshots` starts the tracker, awaits
`synchronouslyTriggerTransitionEvents`, and only then calls `untrack()`.
The awaited chain runs, per queued trigger, `waitForNextFrame`,
`Promise.all` of per-element `transitionend` waits, and another
`waitForNextFrame`; the frame waits and the completion events always
resolve (environment assumption), so the only rejection source is
`getTransitioningElements` throwing when nothing in the container is
transitioning.  The environment supplies, for each trigger index, the
elements of the container at that trigger's completion wait. -/

/-- An element of the transition container as seen by
`getTransitioningElements`: its `class` attribute and the result of
`parseFloat(getComputedStyle(el).transitionDuration)` (`none` = `NaN`). -/
structure TransitioningElem where
  className : String
  transitionDuration : Option ℚ
deriving DecidableEq, Repr

/-- JavaScript truthiness of the parsed duration: `NaN` and `0` are
falsy. -/
def parsedDurationTruthy : Option ℚ → Bool
  | none => false
  | some q => q != 0

/-- `getTransitioningElements`: the elements matched by
`*[class*="duration"]` whose computed transition duration parses to a
truthy number; throws when there are none. -/
def getTransitioningElements (elems : List TransitioningElem) :
    Except String (List TransitioningElem) :=
  let transitioning := elems.filter
    (fun el => containsSub el.className "duration" && parsedDurationTruthy el.transitionDuration)
  if transitioning.length == 0 then
    Except.error "Unable to find any transitioning elements at parent level"
  else Except.ok transitioning

/-- `waitDurationForTransitionToComplete` for one trigger: the frame
waits and the `transitionend` events resolve; only
`getTransitioningElements` can reject. -/
def waitDurationForTransitionToComplete (elems : List TransitioningElem) :
    Except String Unit :=
  (getTransitioningElements elems).map (fun _ => ())

/-- `synchronouslyTriggerTransitionEvents`: strictly serialized triggers;
`remaining` counts the triggers still to run and `t` is the index of the
next one (the trigger's `execute` acts on the external component and is
part of the environment `envElems`). -/
def synchronouslyTriggerTransitionEvents (envElems : Nat → List TransitioningElem) :
    Nat → Nat → Except String Unit
  | 0, _ => Except.ok ()
  | remaining + 1, t =>
    (waitDurationForTransitionToComplete (envElems t)).bind
      (fun _ => synchronouslyTriggerTransitionEvents envElems remaining (t + 1))

instance {ε α : Type} [DecidableEq ε] [DecidableEq α] : DecidableEq (Except ε α)
  | Except.ok x, Except.ok y =>
    if h : x = y then isTrue (by rw [h]) else isFalse (by intro hh; cases hh; exact h rfl)
  | Except.ok _, Except.error _ => isFalse (by intro hh; cases hh)
  | Except.error _, Except.ok _ => isFalse (by intro hh; cases hh)
  | Except.error e, Except.error f =>
    if h : e = f then isTrue (by rw [h]) else isFalse (by intro hh; cases hh; exact h rfl)

/-- Outcome of `captureTransitionSnapshots`: the settled promise and
whether `untrack()` was reached.  `untrack()` (line 60) runs only after
the `await` on line 59 resolves; a rejection skips it, leaving the
tracker's recursive frame-polling loop scheduled. -/
structure CaptureOutcome where
  result : Except String Unit
  untrackCalled : Bool
deriving DecidableEq, Repr

/-- `captureTransitionSnapshots` for `numTriggers` queued triggers. -/
def captureTransitionSnapshots (envElems : Nat → List TransitioningElem)
    (numTriggers : Nat) : CaptureOutcome :=
  match synchronouslyTriggerTransitionEvents envElems numTriggers 0 with
  | Except.ok _ => { result := Except.ok (), untrackCalled := true }
  | Except.error e => { result := Except.error e, untrackCalled := false }

/-- Whether a container state has no transitioning element (the
condition under which `getTransitioningElements` throws). -/
def hasNoTransitioning (elems : List TransitioningElem) : Bool :=
  (elems.filter
    (fun el => containsSub el.className "duration" && parsedDurationTruthy el.transitionDuration)).length == 0

/-! ## Concrete sample data used by witnesses and counterexamples -/

/-- A concrete stand-in for the external `snapshotDiff` collaborator. -/
def sampleDiff : String → String → String := fun a b => a ++ "|" ++ b

/-- Four captured snapshots (baseline plus one 3-stage cycle); the cycle
start (index 1) is at time 0 and the boundary (index 3) at time `t3`. -/
def sampleSnaps (t3 : Int) : List TransitionSnapshot :=
  [{ content := "s0", recordedAt := 0 },
   { content := "s1", recordedAt := 0 },
   { content := "s2", recordedAt := 30 },
   { content := "s3", recordedAt := t3 }]

/-- Two queued triggers: one real trigger and one follow-up. -/
def sampleTriggers : List TransitionTrigger :=
  expectFollowUpTransition
    (addTransitionTrigger [] { isFollowUp := false, expectedDuration := 75 }) 1000000

/-- A chained-frame schedule on a fresh scheduler, with user callback
`emit 7`. -/
def sampleAfterNext : TM × Nat :=
  scheduleAnimationFrameAfterNext (Prog.emit 7 Prog.done) initialTM

/-- A `getContent` that returns `undefined` on every evaluation. -/
def sampleGetUndefined : Nat → GetResult Nat := fun _ => GetResult.value none

/-- A `getContent` that returns `"a"`-like value 5 once, then throws. -/
def sampleGetThenThrow : Nat → GetResult Nat := fun n =>
  if n = 0 then GetResult.value (some 5) else GetResult.thrown

/-- A `getContent` that always returns the same proper value. -/
def sampleGetConst : Nat → GetResult Nat := fun _ => GetResult.value (some 3)

/-! ## Helper lemmas -/

/-- The implemented acceptance test agrees with the specification's
window. -/
theorem transitionTookDuration_iff (snaps : List TransitionSnapshot)
    (transitionEndIndex transitionStartIndex : Nat) (expectedDuration : Int) :
    transitionTookDuration snaps transitionEndIndex transitionStartIndex expectedDuration = true ↔
      specWindowAccepts (specElapsed snaps transitionStartIndex transitionEndIndex)
        expectedDuration := by
  unfold transitionTookDuration specWindowAccepts specElapsed
    diffBetweenSnapshotRecordedAtTimesInMs
  simp [Bool.and_eq_true, decide_eq_true_eq]

/-! ## Claims -/

/-- Claim C1: in `getTransitionActivityReport`, walking captured
snapshots from index 1 with a running stage counter initialised to 1,
whenever the counter is a multiple of 3 the analyser classifies the
boundary by the boundary snapshot's own content (enter marker → reset
to 1, move marker → reset to 2, otherwise reset to 0), pops the next
expected duration off the queue, asserts the measured duration, and
appends " Transition took at least {duration}ms" to that render's line;
after every processed snapshot the counter is incremented (so the state
leaving a boundary is the reset value plus one, and a non-boundary
snapshot just increments). -/
theorem claimC1_boundary_step (diffFn : String → String → String)
    (snaps : List TransitionSnapshot) (st : ReportState) (i : Nat) (durations : List Int) :
    (st.transitionStage % 3 = 0 →
      reportStep diffFn snaps st i =
        match st.expectedDurations with
        | [] =>
          Except.error ("Transition #" ++ toString st.transitionIndex ++
            " failed to take at least undefinedms")
        | d :: rest =>
          if specWindowAccepts (specElapsed snaps st.transitionStartIndex i) d then
            Except.ok
              { formattedReport := st.formattedReport ++ "Render " ++ toString i ++ ":" ++
                  " Transition took at least " ++ toString d ++ "ms" ++ "\n" ++
                  diffFn (getSnap snaps (i - 1)).content (getSnap snaps i).content ++ "\n\n"
                transitionStage := specCycleReset (getSnap snaps i).content + 1
                transitionIndex := st.transitionIndex + 1
                transitionStartIndex := i
                expectedDurations := rest
                consumedDurations := st.consumedDurations ++ [d] }
          else
            Except.error ("Transition #" ++ toString st.transitionIndex ++
              " failed to take at least " ++ toString d ++ "ms")) ∧
    (st.transitionStage % 3 ≠ 0 →
      reportStep diffFn snaps st i =
        Except.ok
          { st with
            formattedReport := st.formattedReport ++ "Render " ++ toString i ++ ":" ++ "\n" ++
              diffFn (getSnap snaps (i - 1)).content (getSnap snaps i).content ++ "\n\n"
            transitionStage := st.transitionStage + 1 }) ∧
    runTransitionActivityReport diffFn snaps durations =
      (List.range' 1 (snaps.length - 1)).foldl
        (fun acc j => acc.bind (fun s => reportStep diffFn snaps s j))
        (Except.ok (initialReportState durations)) ∧
    (initialReportState durations).transitionStage = 1 := by
  obtain ⟨rep, stg, ti, tsi, durs, cons⟩ := st
  refine ⟨?_, ?_, rfl, rfl⟩
  · intro h
    simp only [reportStep, TRANSITION_STAGES] at *
    rw [if_pos h]
    cases durs with
    | nil => rfl
    | cons d rest =>
      simp only
      by_cases hw : specWindowAccepts (specElapsed snaps tsi i) d
      · rw [if_pos ((transitionTookDuration_iff snaps i tsi d).mpr hw), if_pos hw]
        rfl
      · rw [if_neg (fun hb => hw ((transitionTookDuration_iff snaps i tsi d).mp hb)),
          if_neg hw]
  · intro h
    simp only [reportStep, TRANSITION_STAGES]
    rw [if_neg h]

/-- Witness for C1: a concrete boundary step (stage counter 3, plain
boundary snapshot) pops 75, passes the window, appends the duration
note and resets the counter to 0 + 1. -/
theorem claimC1_boundary_step_witness :
    reportStep sampleDiff (sampleSnaps 75) (ReportState.mk "" 3 1 1 [75] []) 3 =
      Except.ok (ReportState.mk "Render 3: Transition took at least 75ms\ns2|s3\n\n" 1 2 3 [] [75]) := by
  have h := (claimC1_boundary_step sampleDiff (sampleSnaps 75)
    (ReportState.mk "" 3 1 1 [75] []) 3 []).1 (by decide)
  rw [h]
  rfl

/-- Claim C2: a duration assertion passes exactly when the elapsed time
between the cycle-start snapshot and the boundary snapshot lies in
`[expectedDuration - 20, expectedDuration * 2 + 20]`. -/
theorem claimC2_duration_window (snaps : List TransitionSnapshot)
    (transitionEndIndex transitionStartIndex : Nat) (expectedDuration : Int) :
    transitionTookDuration snaps transitionEndIndex transitionStartIndex expectedDuration = true ↔
      specWindowAccepts (specElapsed snaps transitionStartIndex transitionEndIndex)
        expectedDuration :=
  transitionTookDuration_iff snaps transitionEndIndex transitionStartIndex expectedDuration

/-- Counterexample to C3: with a single trigger of expected duration 75
and a measured elapsed time of 74ms, the analysis completes instead of
rejecting — 74 lies inside the acceptance window `[55, 170]`, so the
claimed failure at 74ms does not happen. -/
theorem claimC3_counterexample :
    isOkE (getTransitionActivityReport sampleDiff (sampleSnaps 74) [75]) = true ∧
    getTransitionActivityReport sampleDiff (sampleSnaps 74) [75] ≠
      Except.error "Transition #1 failed to take at least 75ms" := by
  exact ⟨rfl, by decide⟩

/-- Claim C3 as amended: with a single trigger of expected duration 75,
an elapsed time of exactly 75ms passes; 74ms also passes (it is inside
the window); an elapsed time below the window's lower bound 55 — here
54ms — fails, rejecting with
"Transition #1 failed to take at least 75ms". -/
theorem claimC3_amended :
    getTransitionActivityReport sampleDiff (sampleSnaps 75) [75] =
      Except.ok "Render 1:\ns0|s1\n\nRender 2:\ns1|s2\n\nRender 3: Transition took at least 75ms\ns2|s3" ∧
    isOkE (getTransitionActivityReport sampleDiff (sampleSnaps 74) [75]) = true ∧
    getTransitionActivityReport sampleDiff (sampleSnaps 54) [75] =
      Except.error "Transition #1 failed to take at least 75ms" :=
  ⟨rfl, rfl, rfl⟩

/-- Folding the report step over any index list from a thrown state
stays thrown. -/
theorem reportFoldl_error (diffFn : String → String → String)
    (snaps : List TransitionSnapshot) (l : List Nat) (e : String) :
    l.foldl (fun acc i => acc.bind (fun st => reportStep diffFn snaps st i))
      (Except.error e) = Except.error e := by
  induction l with
  | nil => rfl
  | cons i t ih => simpa [List.foldl, Except.bind] using ih

/-- One report step conserves the multiset `consumed ++ pending` of
expected durations, moving at most the head of the pending queue to the
end of the consumed trace. -/
theorem reportStep_conservation (diffFn : String → String → String)
    (snaps : List TransitionSnapshot) (st : ReportState) (i : Nat) (st' : ReportState)
    (h : reportStep diffFn snaps st i = Except.ok st') :
    st'.consumedDurations ++ st'.expectedDurations =
      st.consumedDurations ++ st.expectedDurations := by
  obtain ⟨rep, stg, ti, tsi, durs, cons⟩ := st
  simp only [reportStep, TRANSITION_STAGES] at h
  by_cases hb : stg % 3 = 0
  · rw [if_pos hb] at h
    cases durs with
    | nil => simp at h
    | cons d rest =>
      by_cases hw : transitionTookDuration snaps i tsi d = true
      · simp only [hw, if_true] at h
        injection h with h'
        subst h'
        simp
      · simp [hw] at h
  · rw [if_neg hb] at h
    injection h with h'
    rw [← h']

/-- Folding the report steps conserves `consumed ++ pending`. -/
theorem reportFoldl_conservation (diffFn : String → String → String)
    (snaps : List TransitionSnapshot) (l : List Nat) :
    ∀ st st', l.foldl (fun acc i => acc.bind (fun s0 => reportStep diffFn snaps s0 i))
        (Except.ok st) = Except.ok st' →
      st'.consumedDurations ++ st'.expectedDurations =
        st.consumedDurations ++ st.expectedDurations := by
  induction l with
  | nil =>
    intro st st' h
    cases h
    rfl
  | cons i t ih =>
    intro st st' h
    simp only [List.foldl] at h
    rcases hs : reportStep diffFn snaps st i with e | st1 <;>
      rw [show (Except.ok st).bind (fun s0 => reportStep diffFn snaps s0 i) =
        reportStep diffFn snaps st i from rfl, hs] at h
    · rw [reportFoldl_error] at h
      cases h
    · rw [ih st1 st' h]
      exact reportStep_conservation diffFn snaps st i st1 hs

/-- Counterexample to C4: a completed analysis with two queued triggers
(one real, one follow-up) whose captured snapshots contain a single
stage boundary performs exactly one duration assertion, not two — the
assertion count is driven by the snapshots, not by the number of
triggers. -/
theorem claimC4_counterexample :
    sampleTriggers.length = 2 ∧
    isOkE (runTransitionActivityReport sampleDiff (sampleSnaps 75)
      (sampleTriggers.map TransitionTrigger.expectedDuration)) = true ∧
    consumedOf (runTransitionActivityReport sampleDiff (sampleSnaps 75)
      (sampleTriggers.map TransitionTrigger.expectedDuration)) = [75] :=
  ⟨rfl, rfl, rfl⟩

/-- Claim C4 as amended: a completed `analyseTransitionActivity`
performs one duration assertion per stage boundary found in the
captured snapshots, consuming expected durations strictly from the
front of the trigger queue in the order the triggers were supplied —
the consumed trace followed by the still-pending queue is exactly the
supplied duration list.  Exactly `N` assertions happen only in the
well-formed case where the snapshots contain `N` boundaries (the
spec's own invariant); the counterexample shows a completed run with
two triggers and one assertion. -/
theorem claimC4_amended (diffFn : String → String → String)
    (snaps : List TransitionSnapshot) (durations : List Int) (st' : ReportState)
    (h : runTransitionActivityReport diffFn snaps durations = Except.ok st') :
    st'.consumedDurations ++ st'.expectedDurations = durations := by
  have hc := reportFoldl_conservation diffFn snaps (List.range' 1 (snaps.length - 1))
    (initialReportState durations) st' h
  simpa [initialReportState] using hc

/-- Witness for C4 (amended): the completed two-trigger run of the
counterexample consumed `[75]` and left `[1000000]` pending, and their
concatenation is the supplied duration list. -/
theorem claimC4_amended_witness :
    (ReportState.mk
        "Render 1:\ns0|s1\n\nRender 2:\ns1|s2\n\nRender 3: Transition took at least 75ms\ns2|s3\n\n"
        1 2 3 [1000000] [75]).consumedDurations ++
      (ReportState.mk
        "Render 1:\ns0|s1\n\nRender 2:\ns1|s2\n\nRender 3: Transition took at least 75ms\ns2|s3\n\n"
        1 2 3 [1000000] [75]).expectedDurations = [75, 1000000] :=
  claimC4_amended sampleDiff (sampleSnaps 75) [75, 1000000] _ rfl

/-- Claim C5: every scheduled callback runs inside the guarded wrapper
`executeTask`: the user callback's effects happen; on a throw one error
is appended to the diagnostic sink and the exception is not rethrown
(the wrapper's result is an ordinary state); afterwards the task's
registry entry is removed — and that removal is exactly the one change
to the registry compared with the state the callback left behind,
whether or not the callback threw. -/
theorem claimC5_guarded_wrapper (callback : Prog) (taskId : Nat) (s : TM) :
    (∀ e, e ∈ (executeTask callback taskId s).taskKillers ↔
        e ∈ (execProg callback s).1.taskKillers ∧ e.1 ≠ taskId) ∧
    (executeTask callback taskId s).errorLog =
      (execProg callback s).1.errorLog ++
        (match (execProg callback s).2 with
         | some msg => ["Error executing task: " ++ msg]
         | none => []) ∧
    (executeTask callback taskId s).rafQueue = (execProg callback s).1.rafQueue ∧
    (executeTask callback taskId s).timeoutQueue = (execProg callback s).1.timeoutQueue ∧
    (executeTask callback taskId s).output = (execProg callback s).1.output ∧
    (executeTask callback taskId s).nextTaskId = (execProg callback s).1.nextTaskId ∧
    (executeTask callback taskId s).nextRequestId = (execProg callback s).1.nextRequestId := by
  unfold executeTask cleanupTask eraseKiller
  rcases hr : execProg callback s with ⟨s1, err⟩
  cases err <;>
    simp [hr, List.mem_filter, bne_iff_ne]

/-- Filtering away an id that no entry carries is the identity. -/
theorem filterNe_eq_self {α : Type} (l : List (Nat × α)) (i : Nat)
    (h : ∀ e ∈ l, e.1 ≠ i) : l.filter (fun e => e.1 != i) = l := by
  induction l with
  | nil => rfl
  | cons a t ih =>
    rw [List.filter_cons_of_pos (by simpa using h a (List.mem_cons_self a t)),
      ih (fun e he => h e (List.mem_cons_of_mem a he))]

/-- Appending a single fresh entry and then filtering it away restores
the original list. -/
theorem filterNe_append_single {α : Type} (l : List (Nat × α)) (i : Nat) (x : α)
    (h : ∀ e ∈ l, e.1 ≠ i) : (l ++ [(i, x)]).filter (fun e => e.1 != i) = l := by
  rw [List.filter_append, filterNe_eq_self l i h]
  simp

/-- Lookup of a fresh id finds exactly the appended entry. -/
theorem findEq_append_single {α : Type} (l : List (Nat × α)) (i : Nat) (x : α)
    (h : ∀ e ∈ l, e.1 ≠ i) : (l ++ [(i, x)]).find? (fun e => e.1 == i) = some (i, x) := by
  induction l with
  | nil => simp [List.find?]
  | cons a t ih =>
    rw [List.cons_append, List.find?_cons_of_neg _ (by simpa using h a (List.mem_cons_self a t)),
      ih (fun e he => h e (List.mem_cons_of_mem a he))]

/-- `eraseKiller` of an id that is not registered is the identity. -/
theorem eraseKiller_fresh (l : List (Nat × Killer)) (i : Nat)
    (h : ∀ e ∈ l, e.1 ≠ i) : eraseKiller i l = l :=
  filterNe_eq_self l i h

/-- `eraseKiller` drops an appended entry carrying the erased id. -/
theorem eraseKiller_append_self (l : List (Nat × Killer)) (i : Nat) (k : Killer) :
    eraseKiller i (l ++ [(i, k)]) = eraseKiller i l := by
  unfold eraseKiller
  rw [List.filter_append]
  simp

/-- Cancelling a frame task immediately after scheduling it undoes
everything except the consumed counters: the platform entry is removed
and the registry is back to what it was. -/
theorem cancelTask_after_scheduleAnimationFrame (p : Prog) (s : TM) (hwf : s.WF) :
    cancelTask (scheduleAnimationFrame p s).2 (scheduleAnimationFrame p s).1 =
      { s with nextRequestId := s.nextRequestId + 1, nextTaskId := s.nextTaskId + 1 } := by
  obtain ⟨h1, _, h3⟩ := hwf
  have hk : ∀ e ∈ s.taskKillers, e.1 ≠ s.nextTaskId := fun e he => Nat.ne_of_lt (h3 e he)
  have hr : ∀ e ∈ s.rafQueue, e.1 ≠ s.nextRequestId := fun e he => Nat.ne_of_lt (h1 e he)
  have e1 : scheduleAnimationFrame p s =
      ({ s with
          rafQueue := s.rafQueue ++ [(s.nextRequestId, p, s.nextTaskId)],
          nextRequestId := s.nextRequestId + 1,
          taskKillers := eraseKiller s.nextTaskId s.taskKillers ++
            [(s.nextTaskId, Killer.raf s.nextRequestId)],
          nextTaskId := s.nextTaskId + 1 }, s.nextTaskId) := rfl
  rw [e1]
  simp only [cancelTask, eraseKiller_fresh s.taskKillers s.nextTaskId hk]
  rw [findEq_append_single s.taskKillers s.nextTaskId (Killer.raf s.nextRequestId) hk]
  simp only [runKiller, cancelAnimationFrameOp,
    filterNe_append_single s.rafQueue s.nextRequestId (p, s.nextTaskId) hr,
    eraseKiller_append_self, eraseKiller_fresh s.taskKillers s.nextTaskId hk]

/-- Same for a chained frame task: the returned id controls the first
hop of the chain, which has not fired yet. -/
theorem cancelTask_after_scheduleAfterNext (p : Prog) (s : TM) (hwf : s.WF) :
    cancelTask (scheduleAnimationFrameAfterNext p s).2 (scheduleAnimationFrameAfterNext p s).1 =
      { s with nextRequestId := s.nextRequestId + 1, nextTaskId := s.nextTaskId + 1 } :=
  cancelTask_after_scheduleAnimationFrame (Prog.schedFrame p Prog.done) s hwf

/-- Same for a timeout task. -/
theorem cancelTask_after_scheduleTimeout (p : Prog) (delay : Nat) (s : TM) (hwf : s.WF) :
    cancelTask (scheduleTimeout p delay s).2 (scheduleTimeout p delay s).1 =
      { s with nextRequestId := s.nextRequestId + 1, nextTaskId := s.nextTaskId + 1 } := by
  obtain ⟨_, h2, h3⟩ := hwf
  have hk : ∀ e ∈ s.taskKillers, e.1 ≠ s.nextTaskId := fun e he => Nat.ne_of_lt (h3 e he)
  have ht : ∀ e ∈ s.timeoutQueue, e.1 ≠ s.nextRequestId := fun e he => Nat.ne_of_lt (h2 e he)
  have e1 : scheduleTimeout p delay s =
      ({ s with
          timeoutQueue := s.timeoutQueue ++ [(s.nextRequestId, delay, p, s.nextTaskId)],
          nextRequestId := s.nextRequestId + 1,
          taskKillers := eraseKiller s.nextTaskId s.taskKillers ++
            [(s.nextTaskId, Killer.timeout s.nextRequestId)],
          nextTaskId := s.nextTaskId + 1 }, s.nextTaskId) := rfl
  rw [e1]
  simp only [cancelTask, eraseKiller_fresh s.taskKillers s.nextTaskId hk]
  rw [findEq_append_single s.taskKillers s.nextTaskId (Killer.timeout s.nextRequestId) hk]
  simp only [runKiller, clearTimeoutOp,
    filterNe_append_single s.timeoutQueue s.nextRequestId (delay, p, s.nextTaskId) ht,
    eraseKiller_append_self, eraseKiller_fresh s.taskKillers s.nextTaskId hk]

/-- Membership in the flattened image of a filtered list implies
membership in the flattened image of the original list. -/
theorem mem_flatten_map_filter {α : Type} (g : α → List Nat) (f : α → Bool) (l : List α)
    (v : Nat) (h : v ∈ ((l.filter f).map g).flatten) : v ∈ (l.map g).flatten := by
  simp only [List.mem_flatten, List.mem_map] at h ⊢
  obtain ⟨_, ⟨a, ha, rfl⟩, hv⟩ := h
  exact ⟨g a, ⟨a, (List.mem_filter.mp ha).1, rfl⟩, hv⟩

/-- Running a killer only removes queue entries. -/
theorem queuedEmits_runKiller_sub (k : Killer) (s : TM) (v : Nat)
    (h : v ∈ (runKiller k s).queuedEmits) : v ∈ s.queuedEmits := by
  cases k with
  | raf rid =>
    simp only [runKiller, cancelAnimationFrameOp, TM.queuedEmits] at h ⊢
    rcases List.mem_append.mp h with h' | h'
    · exact List.mem_append.mpr (Or.inl (mem_flatten_map_filter _ _ _ _ h'))
    · exact List.mem_append.mpr (Or.inr h')
  | timeout tid =>
    simp only [runKiller, clearTimeoutOp, TM.queuedEmits] at h ⊢
    rcases List.mem_append.mp h with h' | h'
    · exact List.mem_append.mpr (Or.inl h')
    · exact List.mem_append.mpr (Or.inr (mem_flatten_map_filter _ _ _ _ h'))

/-- Running a killer does not touch the output trace. -/
theorem output_runKiller (k : Killer) (s : TM) : (runKiller k s).output = s.output := by
  cases k <;> rfl

/-- `cancelTask` only removes queue entries. -/
theorem queuedEmits_cancelTask_sub (i : Nat) (s : TM) (v : Nat)
    (h : v ∈ (cancelTask i s).queuedEmits) : v ∈ s.queuedEmits := by
  rcases hf : s.taskKillers.find? (fun e => e.1 == i) with _ | e <;>
    simp only [cancelTask, hf] at h
  · exact h
  · exact queuedEmits_runKiller_sub e.2 s v h

/-- `cancelTask` does not touch the output trace. -/
theorem output_cancelTask (i : Nat) (s : TM) : (cancelTask i s).output = s.output := by
  rcases hf : s.taskKillers.find? (fun e => e.1 == i) with _ | e
  · simp only [cancelTask, hf]
  · simp only [cancelTask, hf]
    exact output_runKiller e.2 s

/-- Folding killers over the registry only removes queue entries. -/
theorem queuedEmits_foldl_runKiller_sub (l : List (Nat × Killer)) :
    ∀ (s : TM) (v : Nat),
      v ∈ (l.foldl (fun acc e => runKiller e.2 acc) s).queuedEmits → v ∈ s.queuedEmits := by
  induction l with
  | nil => intro s v h; exact h
  | cons a t ih =>
    intro s v h
    exact queuedEmits_runKiller_sub a.2 s v (ih (runKiller a.2 s) v h)

/-- Folding killers does not touch the output trace. -/
theorem output_foldl_runKiller (l : List (Nat × Killer)) :
    ∀ s : TM, (l.foldl (fun acc e => runKiller e.2 acc) s).output = s.output := by
  induction l with
  | nil => intro s; rfl
  | cons a t ih =>
    intro s
    rw [List.foldl_cons, ih (runKiller a.2 s), output_runKiller]

/-- `cancelAllTasks` only removes queue entries. -/
theorem queuedEmits_cancelAllTasks_sub (s : TM) (v : Nat)
    (h : v ∈ (cancelAllTasks s).queuedEmits) : v ∈ s.queuedEmits :=
  queuedEmits_foldl_runKiller_sub s.taskKillers s v h

/-- `cancelAllTasks` does not touch the output trace. -/
theorem output_cancelAllTasks (s : TM) : (cancelAllTasks s).output = s.output :=
  output_foldl_runKiller s.taskKillers s

/-- Scheduling a frame task adds exactly the body's emits to the queued
emits. -/
theorem mem_queuedEmits_scheduleFrame (body : Prog) (s : TM) (v : Nat) :
    v ∈ (scheduleAnimationFrame body s).1.queuedEmits ↔
      v ∈ s.queuedEmits ∨ v ∈ body.emits := by
  simp only [scheduleAnimationFrame, getNextTaskId, requestAnimationFrameOp, setKiller,
    TM.queuedEmits, List.map_append, List.flatten_append, List.mem_append]
  simp only [List.map_cons, List.map_nil, List.flatten_cons, List.flatten_nil,
    List.append_nil, List.mem_append]
  tauto

/-- Scheduling a timeout task adds exactly the body's emits to the
queued emits. -/
theorem mem_queuedEmits_scheduleTimeout (body : Prog) (delay : Nat) (s : TM) (v : Nat) :
    v ∈ (scheduleTimeout body delay s).1.queuedEmits ↔
      v ∈ s.queuedEmits ∨ v ∈ body.emits := by
  simp only [scheduleTimeout, getNextTaskId, setTimeoutOp, setKiller,
    TM.queuedEmits, List.map_append, List.flatten_append, List.mem_append]
  simp only [List.map_cons, List.map_nil, List.flatten_cons, List.flatten_nil,
    List.append_nil, List.mem_append]
  tauto

/-- Executing a callback body whose emits avoid `v` neither outputs `v`
nor schedules any callback that could ever emit `v`. -/
theorem execProg_avoids (v : Nat) :
    ∀ (p : Prog) (s : TM), v ∉ p.emits → v ∉ s.output ∧ v ∉ s.queuedEmits →
      v ∉ (execProg p s).1.output ∧ v ∉ (execProg p s).1.queuedEmits := by
  intro p
  induction p with
  | done => exact fun s _ h => h
  | fail msg => exact fun s _ h => h
  | emit w k ih =>
    intro s hp h
    simp only [Prog.emits, List.mem_cons, not_or] at hp
    refine ih _ hp.2 ⟨?_, h.2⟩
    simp only [List.mem_append, List.mem_singleton, not_or]
    exact ⟨h.1, hp.1⟩
  | schedFrame body k ihb ihk =>
    intro s hp h
    simp only [Prog.emits, List.mem_append, not_or] at hp
    refine ihk _ hp.2 ⟨h.1, ?_⟩
    intro hm
    rcases (mem_queuedEmits_scheduleFrame body s v).mp hm with h' | h'
    · exact h.2 h'
    · exact hp.1 h'
  | schedFrameAfterNext body k ihb ihk =>
    intro s hp h
    simp only [Prog.emits, List.mem_append, not_or] at hp
    refine ihk _ hp.2 ⟨h.1, ?_⟩
    intro hm
    rcases (mem_queuedEmits_scheduleFrame (Prog.schedFrame body Prog.done) s v).mp hm with h' | h'
    · exact h.2 h'
    · exact hp.1 (by simpa [Prog.emits] using h')
  | schedTimeout delay body k ihb ihk =>
    intro s hp h
    simp only [Prog.emits, List.mem_append, not_or] at hp
    refine ihk _ hp.2 ⟨h.1, ?_⟩
    intro hm
    rcases (mem_queuedEmits_scheduleTimeout body delay s v).mp hm with h' | h'
    · exact h.2 h'
    · exact hp.1 h'
  | cancelId i k ih =>
    intro s hp h
    simp only [Prog.emits] at hp
    refine ih _ hp ⟨?_, ?_⟩
    · rw [output_cancelTask]; exact h.1
    · exact fun hm => h.2 (queuedEmits_cancelTask_sub i s v hm)
  | cancelEvery k ih =>
    intro s hp h
    simp only [Prog.emits] at hp
    refine ih _ hp ⟨?_, ?_⟩
    · rw [output_cancelAllTasks]; exact h.1
    · exact fun hm => h.2 (queuedEmits_cancelAllTasks_sub s v hm)

/-- The guarded wrapper preserves emit-avoidance. -/
theorem executeTask_avoids (v : Nat) (p : Prog) (taskId : Nat) (s : TM)
    (hp : v ∉ p.emits) (h : v ∉ s.output ∧ v ∉ s.queuedEmits) :
    v ∉ (executeTask p taskId s).output ∧ v ∉ (executeTask p taskId s).queuedEmits := by
  have h1 := execProg_avoids v p s hp h
  unfold executeTask cleanupTask
  rcases hr : execProg p s with ⟨s1, err⟩
  rw [hr] at h1
  cases err <;> exact ⟨h1.1, h1.2⟩

/-- Firing the next pending platform callback preserves emit-avoidance. -/
theorem fireNext_avoids (v : Nat) (s : TM)
    (h : v ∉ s.output ∧ v ∉ s.queuedEmits) :
    v ∉ (fireNextPlatformCallback s).output ∧
      v ∉ (fireNextPlatformCallback s).queuedEmits := by
  rcases hq : s.rafQueue with _ | ⟨⟨pid, cb, taskId⟩, rest⟩
  · rcases ht : s.timeoutQueue with _ | ⟨⟨tid2, delay, cb, taskId⟩, rest⟩
    · simpa only [fireNextPlatformCallback, hq, ht] using h
    · have h2 := h.2
      simp only [TM.queuedEmits, hq, ht, List.map_cons, List.flatten_cons, List.map_nil,
        List.flatten_nil, List.nil_append, List.mem_append, not_or] at h2
      have hrest : v ∉ TM.queuedEmits { s with timeoutQueue := rest } := by
        simp only [TM.queuedEmits, hq, List.map_nil, List.flatten_nil, List.nil_append]
        exact h2.2
      simpa only [fireNextPlatformCallback, hq, ht] using
        executeTask_avoids v cb taskId { s with timeoutQueue := rest } h2.1 ⟨h.1, hrest⟩
  · have h2 := h.2
    simp only [TM.queuedEmits, hq, List.map_cons, List.flatten_cons, List.mem_append,
      not_or] at h2
    have hrest : v ∉ TM.queuedEmits { s with rafQueue := rest } := by
      simp only [TM.queuedEmits, List.mem_append, not_or]
      exact ⟨h2.1.2, h2.2⟩
    simpa only [fireNextPlatformCallback, hq] using
      executeTask_avoids v cb taskId { s with rafQueue := rest } h2.1.1 ⟨h.1, hrest⟩

/-- Running the event loop preserves emit-avoidance. -/
theorem runEventLoop_avoids (v : Nat) :
    ∀ (n : Nat) (s : TM), v ∉ s.output ∧ v ∉ s.queuedEmits →
      v ∉ (runEventLoop n s).output ∧ v ∉ (runEventLoop n s).queuedEmits := by
  intro n
  induction n with
  | zero => exact fun s h => h
  | succ m ih => exact fun s h => ih (fireNextPlatformCallback s) (fireNext_avoids v s h)

/-- Killers do not touch `nextTaskId`. -/
theorem nextTaskId_runKiller (k : Killer) (s : TM) :
    (runKiller k s).nextTaskId = s.nextTaskId := by
  cases k <;> rfl

/-- Folding killers does not touch `nextTaskId`. -/
theorem nextTaskId_foldl_runKiller (l : List (Nat × Killer)) :
    ∀ s : TM, (l.foldl (fun acc e => runKiller e.2 acc) s).nextTaskId = s.nextTaskId := by
  induction l with
  | nil => intro s; rfl
  | cons a t ih =>
    intro s
    rw [List.foldl_cons, ih (runKiller a.2 s), nextTaskId_runKiller]

/-- `cancelTask` does not touch `nextTaskId`. -/
theorem nextTaskId_cancelTask (i : Nat) (s : TM) :
    (cancelTask i s).nextTaskId = s.nextTaskId := by
  rcases hf : s.taskKillers.find? (fun e => e.1 == i) with _ | e
  · simp only [cancelTask, hf]
  · simp only [cancelTask, hf]
    exact nextTaskId_runKiller e.2 s

/-- `cancelAllTasks` does not touch `nextTaskId`. -/
theorem nextTaskId_cancelAllTasks (s : TM) :
    (cancelAllTasks s).nextTaskId = s.nextTaskId :=
  nextTaskId_foldl_runKiller s.taskKillers s

/-- Executing a callback body never decreases `nextTaskId`. -/
theorem nextTaskId_execProg_mono :
    ∀ (p : Prog) (s : TM), s.nextTaskId ≤ (execProg p s).1.nextTaskId := by
  intro p
  induction p with
  | done => exact fun s => Nat.le_refl _
  | fail msg => exact fun s => Nat.le_refl _
  | emit w k ih =>
    intro s
    simp only [execProg]
    exact ih { s with output := s.output ++ [w] }
  | schedFrame body k ihb ihk =>
    intro s
    simp only [execProg]
    exact Nat.le_trans (Nat.le_succ _) (ihk (scheduleAnimationFrame body s).1)
  | schedFrameAfterNext body k ihb ihk =>
    intro s
    simp only [execProg]
    exact Nat.le_trans (Nat.le_succ _) (ihk (scheduleAnimationFrameAfterNext body s).1)
  | schedTimeout delay body k ihb ihk =>
    intro s
    simp only [execProg]
    exact Nat.le_trans (Nat.le_succ _) (ihk (scheduleTimeout body delay s).1)
  | cancelId i k ih =>
    intro s
    simp only [execProg]
    have h := ih (cancelTask i s)
    rwa [nextTaskId_cancelTask] at h
  | cancelEvery k ih =>
    intro s
    simp only [execProg]
    have h := ih (cancelAllTasks s)
    rwa [nextTaskId_cancelAllTasks] at h

/-- The guarded wrapper leaves `nextTaskId` where the callback left it. -/
theorem nextTaskId_executeTask (p : Prog) (taskId : Nat) (s : TM) :
    (executeTask p taskId s).nextTaskId = (execProg p s).1.nextTaskId := by
  unfold executeTask cleanupTask
  rcases hr : execProg p s with ⟨s1, err⟩
  cases err <;> rfl

/-- Firing a platform callback never decreases `nextTaskId`. -/
theorem nextTaskId_fireNext_mono (s : TM) :
    s.nextTaskId ≤ (fireNextPlatformCallback s).nextTaskId := by
  rcases hq : s.rafQueue with _ | ⟨⟨pid, cb, taskId⟩, rest⟩
  · rcases ht : s.timeoutQueue with _ | ⟨⟨tid2, delay, cb, taskId⟩, rest⟩
    · simp only [fireNextPlatformCallback, hq, ht]
      exact Nat.le_refl _
    · simp only [fireNextPlatformCallback, hq, ht, nextTaskId_executeTask]
      exact nextTaskId_execProg_mono cb { s with rafQueue := [], timeoutQueue := rest }
  · simp only [fireNextPlatformCallback, hq, nextTaskId_executeTask]
    exact nextTaskId_execProg_mono cb { s with rafQueue := rest }

/-- Driver runs return task ids bounded below by the entry counter and
strictly increasing along the trace. -/
theorem runDriver_ids (ops : List DriverOp) :
    ∀ s : TM, (∀ id ∈ (runDriver ops s).2, s.nextTaskId ≤ id) ∧
      (runDriver ops s).2.Pairwise (· < ·) := by
  induction ops with
  | nil =>
    intro s
    exact ⟨fun id h => absurd h (List.not_mem_nil id), List.Pairwise.nil⟩
  | cons op rest ih =>
    intro s
    cases op with
    | schedFrameOp p =>
      obtain ⟨ihA, ihB⟩ := ih (scheduleAnimationFrame p s).1
      constructor
      · intro id hmem
        rcases List.mem_cons.mp hmem with rfl | hmem
        · exact Nat.le_refl _
        · exact Nat.le_trans (Nat.le_succ _) (ihA id hmem)
      · exact List.Pairwise.cons (fun b hb => ihA b hb) ihB
    | schedTimeoutOp delay p =>
      obtain ⟨ihA, ihB⟩ := ih (scheduleTimeout p delay s).1
      constructor
      · intro id hmem
        rcases List.mem_cons.mp hmem with rfl | hmem
        · exact Nat.le_refl _
        · exact Nat.le_trans (Nat.le_succ _) (ihA id hmem)
      · exact List.Pairwise.cons (fun b hb => ihA b hb) ihB
    | schedAfterNextOp p =>
      obtain ⟨ihA, ihB⟩ := ih (scheduleAnimationFrameAfterNext p s).1
      constructor
      · intro id hmem
        rcases List.mem_cons.mp hmem with rfl | hmem
        · exact Nat.le_refl _
        · exact Nat.le_trans (Nat.le_succ _) (ihA id hmem)
      · exact List.Pairwise.cons (fun b hb => ihA b hb) ihB
    | cancelOp i =>
      obtain ⟨ihA, ihB⟩ := ih (cancelTask i s)
      refine ⟨fun id h => ?_, ihB⟩
      have hle := ihA id h
      rwa [nextTaskId_cancelTask] at hle
    | cancelAllOp =>
      obtain ⟨ihA, ihB⟩ := ih (cancelAllTasks s)
      refine ⟨fun id h => ?_, ihB⟩
      have hle := ihA id h
      rwa [nextTaskId_cancelAllTasks] at hle
    | fireOp =>
      obtain ⟨ihA, ihB⟩ := ih (fireNextPlatformCallback s)
      exact ⟨fun id h => Nat.le_trans (nextTaskId_fireNext_mono s) (ihA id h), ihB⟩

/-- Counterexample to C6: on a fresh scheduler, schedule a chained task
(`scheduleAnimationFrameAfterNext`) whose user callback is `emit 7`.
After the chain's first frame fires, the user callback has not yet run;
`cancelTask` with the returned id is then called — before the user
callback has fired — yet running the remaining pending tasks still
executes the user callback: the returned id stopped controlling the
chain once its first hop fired. -/
theorem claimC6_counterexample :
    (fireNextPlatformCallback sampleAfterNext.1).output = [] ∧
    (runEventLoop 2 (cancelTask sampleAfterNext.2
      (fireNextPlatformCallback sampleAfterNext.1))).output = [7] :=
  ⟨rfl, rfl⟩

/-- Claim C6 as amended: for every task id returned by
`scheduleAnimationFrame`, `scheduleTimeout`, or
`scheduleAnimationFrameAfterNext`, if `cancelTask(id)` is called before
the id's own scheduled platform callback fires (for a chained task:
before the first frame of the chain), the user callback never executes,
even after all other pending tasks run to completion.  (Cancelling a
chained task after its first hop fired does not prevent the final
callback — see the counterexample.) -/
theorem claimC6_amended (kind : ScheduleKind) (v : Nat) (body : Prog) (s : TM) (n : Nat)
    (hwf : s.WF) (hout : v ∉ s.output) (hq : v ∉ s.queuedEmits) :
    v ∉ (runEventLoop n (cancelTask (scheduleBy kind (Prog.emit v body) s).2
        (scheduleBy kind (Prog.emit v body) s).1)).output := by
  have hbase :
      v ∉ ({ s with
          nextRequestId := s.nextRequestId + 1,
          nextTaskId := s.nextTaskId + 1 } : TM).output ∧
        v ∉ ({ s with
          nextRequestId := s.nextRequestId + 1,
          nextTaskId := s.nextTaskId + 1 } : TM).queuedEmits := ⟨hout, hq⟩
  cases kind with
  | frame =>
    show v ∉ (runEventLoop n (cancelTask
      (scheduleAnimationFrame (Prog.emit v body) s).2
      (scheduleAnimationFrame (Prog.emit v body) s).1)).output
    rw [cancelTask_after_scheduleAnimationFrame _ s hwf]
    exact (runEventLoop_avoids v n _ hbase).1
  | afterNext =>
    show v ∉ (runEventLoop n (cancelTask
      (scheduleAnimationFrameAfterNext (Prog.emit v body) s).2
      (scheduleAnimationFrameAfterNext (Prog.emit v body) s).1)).output
    rw [cancelTask_after_scheduleAfterNext _ s hwf]
    exact (runEventLoop_avoids v n _ hbase).1
  | timeout delay =>
    show v ∉ (runEventLoop n (cancelTask
      (scheduleTimeout (Prog.emit v body) delay s).2
      (scheduleTimeout (Prog.emit v body) delay s).1)).output
    rw [cancelTask_after_scheduleTimeout _ delay s hwf]
    exact (runEventLoop_avoids v n _ hbase).1

/-- Witness for C6 (amended): scheduling a chained task on a fresh
scheduler and cancelling it immediately keeps its callback from ever
running. -/
theorem claimC6_amended_witness :
    (5 : Nat) ∉ (runEventLoop 3 (cancelTask
        (scheduleBy ScheduleKind.afterNext (Prog.emit 5 Prog.done) initialTM).2
        (scheduleBy ScheduleKind.afterNext (Prog.emit 5 Prog.done) initialTM).1)).output :=
  claimC6_amended ScheduleKind.afterNext 5 Prog.done initialTM 3 (by decide) (by decide)
    (by decide)

/-- Claim C8: along any driver interaction with a fresh scheduler —
scheduling frame, timeout or chained tasks, cancelling, and letting
pending callbacks fire (including callbacks that throw or schedule) —
the task ids returned by the three scheduling entry points are positive
and strictly increase in call order; in particular an id, once
returned, is never returned again, even after its task was cancelled or
its callback threw. -/
theorem claimC8_fresh_increasing_ids (ops : List DriverOp) :
    (runDriver ops initialTM).2.Pairwise (· < ·) ∧
      ∀ id ∈ (runDriver ops initialTM).2, 1 ≤ id :=
  ⟨(runDriver_ids ops initialTM).2, fun id h => (runDriver_ids ops initialTM).1 id h⟩

/-- Counterexample to C7: the `lastContentValue` local starts out as the
JavaScript value `undefined`, so when `getContent()` itself returns
`undefined` on the initial synchronous call, the strict-inequality
check `lastContentValue !== currentContent` is false and the first
value is *not* delivered — delivery of the first value is not
unconditional.  (`getContent` is still evaluated exactly once.) -/
theorem claimC7_counterexample :
    (trackDOMContentChanges sampleGetUndefined).1.delivered = [] ∧
    (trackDOMContentChanges sampleGetUndefined).1.delivered ≠ [none] ∧
    (trackDOMContentChanges sampleGetUndefined).1.evalCount = 1 :=
  ⟨rfl, by decide, rfl⟩

/-- Claim C7 as amended: `trackDOMContentChanges` synchronously
evaluates `getContent()` exactly once at invocation, and delivers that
first value exactly when it differs (JavaScript `!==`) from the
uninitialised last-seen value `undefined` — that is, always, unless
`getContent` returned `undefined` itself; the delivered value is
recorded as last-seen.  On each later poll it delivers only when the
new value differs from the last-seen value and otherwise stays silent,
but reschedules the next poll either way. -/
theorem claimC7_amended (V : Type) [DecidableEq V] (g : Nat → GetResult V) :
    (∀ v0, g 0 = GetResult.value v0 →
      (trackDOMContentChanges g).1.evalCount = 1 ∧
      (trackDOMContentChanges g).1.frameScheduled = true ∧
      (trackDOMContentChanges g).1.delivered = (if v0 = none then [] else [v0]) ∧
      (trackDOMContentChanges g).1.lastContentValue = v0) ∧
    (∀ (st : TrackerState V) (cur : Option V),
      st.stopTracking = false → g st.evalCount = GetResult.value cur →
      notifyIfContentChange g st =
        (if cur = st.lastContentValue then
          ({ st with evalCount := st.evalCount + 1, frameScheduled := true }, false)
        else
          ({ st with
              lastContentValue := cur,
              delivered := st.delivered ++ [cur],
              evalCount := st.evalCount + 1,
              frameScheduled := true }, false))) := by
  constructor
  · intro v0 h0
    simp only [trackDOMContentChanges, notifyIfContentChange, trackerInit, h0]
    rcases v0 with _ | w <;> simp [jsStrictNeq]
  · intro st cur hstop hg
    simp only [notifyIfContentChange, hstop, hg]
    by_cases hc : cur = st.lastContentValue
    · rw [if_pos hc]
      simp [jsStrictNeq, hc]
    · rw [if_neg hc]
      have hne : st.lastContentValue ≠ cur := fun h => hc h.symm
      simp [jsStrictNeq, bne_iff_ne, hne]

/-- Witness for C7 (amended): a constant proper-valued `getContent` gets
its first value delivered, and the next poll with the same value is
silent but reschedules. -/
theorem claimC7_amended_witness :
    (trackDOMContentChanges sampleGetConst).1.evalCount = 1 ∧
    (trackDOMContentChanges sampleGetConst).1.delivered = [some 3] ∧
    notifyIfContentChange sampleGetConst
        (TrackerState.mk (some 3) false [some 3] 1 true) =
      (TrackerState.mk (some 3) false [some 3] 2 true, false) := by
  have h1 := (claimC7_amended Nat sampleGetConst).1 (some 3) rfl
  have h2 := (claimC7_amended Nat sampleGetConst).2
    (TrackerState.mk (some 3) false [some 3] 1 true) (some 3) rfl rfl
  refine ⟨h1.1, ?_, ?_⟩
  · simpa using h1.2.2.1
  · simpa using h2

/-- A tracker state with no pending poll stays put: the polling loop has
terminated permanently. -/
theorem pollLoop_not_scheduled {V : Type} [DecidableEq V] (g : Nat → GetResult V) :
    ∀ (m : Nat) (st : TrackerState V), st.frameScheduled = false →
      pollLoop g m st = (st, 0) := by
  intro m st h
  cases m with
  | zero => rfl
  | succ k => simp [pollLoop, h]

/-- Claim C10: if `getContent()` throws during a scheduled poll (after
the initial synchronous evaluation), the scheduler's guarded wrapper
absorbs the exception (exactly one logged error, nothing rethrown to
the tracker's caller) and — because the throw happens before the
`scheduleAnimationFrame` line — no further poll is ever scheduled:
regardless of how much fuel remains, the loop performs exactly that one
further evaluation, delivers nothing more, and ends with no pending
poll, without `untrack` being needed. -/
theorem claimC10_throw_stops_polling (V : Type) [DecidableEq V] (g : Nat → GetResult V)
    (st : TrackerState V) (n : Nat)
    (hs : st.frameScheduled = true) (hstop : st.stopTracking = false)
    (hthrow : g st.evalCount = GetResult.thrown) :
    pollLoop g (n + 1) st =
      ({ st with evalCount := st.evalCount + 1, frameScheduled := false }, 1) := by
  have hnot : notifyIfContentChange g st =
      ({ st with evalCount := st.evalCount + 1, frameScheduled := false }, true) := by
    simp [notifyIfContentChange, hstop, hthrow]
  simp only [pollLoop, hs, if_true, hnot]
  rw [pollLoop_not_scheduled g n _ rfl]
  rfl

/-- Witness for C10: after the tracker's initial call on a
`getContent` that throws from the second evaluation on, one scheduled
poll absorbs the throw with a single logged error and the loop is over
for any further fuel. -/
theorem claimC10_witness :
    pollLoop sampleGetThenThrow 3 (TrackerState.mk (some 5) false [some 5] 1 true) =
      (TrackerState.mk (some 5) false [some 5] 2 false, 1) := by
  have h := claimC10_throw_stops_polling Nat sampleGetThenThrow
    (TrackerState.mk (some 5) false [some 5] 1 true) 2 rfl rfl rfl
  simpa using h

/-- When something is transitioning, the completion wait resolves. -/
theorem waitDuration_ok (elems : List TransitioningElem)
    (h : hasNoTransitioning elems = false) :
    waitDurationForTransitionToComplete elems = Except.ok () := by
  unfold hasNoTransitioning at h
  simp [waitDurationForTransitionToComplete, getTransitioningElements, h, Except.map]

/-- When nothing is transitioning, the completion wait rejects. -/
theorem waitDuration_error (elems : List TransitioningElem)
    (h : hasNoTransitioning elems = true) :
    waitDurationForTransitionToComplete elems =
      Except.error "Unable to find any transitioning elements at parent level" := by
  unfold hasNoTransitioning at h
  simp [waitDurationForTransitionToComplete, getTransitioningElements, h, Except.map]

/-- The serialized trigger chain rejects at the first trigger whose
completion wait finds nothing transitioning. -/
theorem syncEvents_first_failure (envElems : Nat → List TransitioningElem) :
    ∀ (remaining t0 j : Nat), j < remaining →
      hasNoTransitioning (envElems (t0 + j)) = true →
      (∀ i < j, hasNoTransitioning (envElems (t0 + i)) = false) →
      synchronouslyTriggerTransitionEvents envElems remaining t0 =
        Except.error "Unable to find any transitioning elements at parent level" := by
  intro remaining
  induction remaining with
  | zero => exact fun t0 j hj _ _ => absurd hj (Nat.not_lt_zero j)
  | succ m ih =>
    intro t0 j hj hfail hok
    cases j with
    | zero =>
      simp only [synchronouslyTriggerTransitionEvents]
      rw [waitDuration_error _ (by simpa using hfail)]
      rfl
    | succ j' =>
      simp only [synchronouslyTriggerTransitionEvents]
      rw [waitDuration_ok _ (by simpa using hok 0 (Nat.succ_pos j'))]
      refine ih (t0 + 1) j' (Nat.lt_of_succ_lt_succ hj) ?_ ?_
      · rw [show t0 + 1 + j' = t0 + (j' + 1) from by omega]
        exact hfail
      · intro i hi
        rw [show t0 + 1 + i = t0 + (i + 1) from by omega]
        exact hok (i + 1) (Nat.succ_lt_succ hi)

/-- Claim C9: if, during some trigger's completion wait, no element in
the container carries a class containing "duration" together with a
truthy parsed transition duration (and every earlier wait found one),
`captureTransitionSnapshots` rejects with the "Unable to find any
transitioning elements at parent level" error and `untrack()` is never
called, so the tracker's frame-polling loop remains scheduled after the
rejection. -/
theorem claimC9_leaked_tracker (envElems : Nat → List TransitioningElem)
    (numTriggers t : Nat) (ht : t < numTriggers)
    (hfail : hasNoTransitioning (envElems t) = true)
    (hbefore : ∀ i < t, hasNoTransitioning (envElems i) = false) :
    captureTransitionSnapshots envElems numTriggers =
      { result := Except.error "Unable to find any transitioning elements at parent level",
        untrackCalled := false } := by
  unfold captureTransitionSnapshots
  rw [syncEvents_first_failure envElems numTriggers 0 t ht (by simpa using hfail)
    (fun i hi => by simpa using hbefore i hi)]

/-- Witness for C9: a single trigger over an empty container rejects
with the tracker still running. -/
theorem claimC9_leaked_tracker_witness :
    captureTransitionSnapshots (fun _ => []) 1 =
      { result := Except.error "Unable to find any transitioning elements at parent level",
        untrackCalled := false } :=
  claimC9_leaked_tracker (fun _ => []) 1 0 (by decide) (by decide)
    (fun i hi => absurd hi (Nat.not_lt_zero i))

end SolidTransitionGroup
